import Mathlib

/-!
Verification development for the retrieval-and-reasoning pipeline of the
Ubuntu support RAG service.  The definitions below are a shallow embedding of
the Python sources under `backend/rag_service/` (`cache.py`, `multi_hop.py`,
`query_transformer.py`, `answer_synthesizer.py`, `app.py`); theorems about
them settle the frozen claims of the specification.

Conventions of the embedding:
* Python `float` scores, confidences and clock values are modelled by `ℚ`;
  the concrete literals appearing in the source (`0.3`, `0.9`, …) are exact
  decimal fractions, so `ℚ` represents them without rounding.
* Python `dict.get(k, default)` reads of optional fields are modelled by
  `Option` fields read via `Option.getD`.
* `hashlib.md5(...).hexdigest()` is implemented in full (RFC 1321) so that
  cache keys are computed exactly as the source computes them.
-/

set_option maxRecDepth 10000

namespace RagService

/-- The ASCII single-quote character, used to build string literals that
contain an apostrophe. -/
def apos : String := String.singleton (Char.ofNat 39)

/-! ## Python string primitives -/

/-- `str.lower()` (ASCII, which covers every string in this code base):
lower-case every character. -/
def pyLower (s : String) : String := String.mk (s.data.map Char.toLower)

/-- `str.strip()`: remove leading and trailing whitespace. -/
def pyStrip (s : String) : String :=
  String.mk (((s.data.dropWhile Char.isWhitespace).reverse.dropWhile
    Char.isWhitespace).reverse)

/-- Does `pat` occur as a prefix of `s` (on character lists)? -/
def startsWithL : List Char → List Char → Bool
  | [], _ => true
  | _ :: _, [] => false
  | p :: ps, c :: cs => p = c && startsWithL ps cs

/-- Search for the first occurrence of `pat` in `s`; on success return the
remainder of `s` after that occurrence. -/
def findDrop (pat : List Char) : List Char → Option (List Char)
  | [] => if pat.isEmpty then some [] else none
  | c :: cs =>
    if startsWithL pat (c :: cs) then some ((c :: cs).drop pat.length)
    else findDrop pat cs

/-- Python `needle in haystack` on strings (substring containment). -/
def containsSub (needle haystack : String) : Bool :=
  (findDrop needle.data haystack.data).isSome

/-- A regular expression of the shape `l₁.*l₂.*…​.*lₖ` (literals separated by
`.*`), as used by `MultiHopReasoner.complex_patterns`, matches a string
exactly when the literals occur in order; `re.search` succeeds iff the greedy
left-to-right scan succeeds. -/
def matchSeq : List (List Char) → List Char → Bool
  | [], _ => true
  | p :: ps, s =>
    match findDrop p s with
    | some rest => matchSeq ps rest
    | none => false

/-- Is `c` a `\w` character (`[A-Za-z0-9_]`, ASCII inputs)? -/
def isWordChar (c : Char) : Bool := c.isAlphanum || c = '_'

/-- Helper for `re.findall(r"\b\w+\b", s)`: split into maximal runs of word
characters.  The accumulator holds the current run, reversed. -/
def wordRunsAux : List Char → List Char → List String
  | [], acc => if acc.isEmpty then [] else [String.mk acc.reverse]
  | c :: cs, acc =>
    if isWordChar c then wordRunsAux cs (c :: acc)
    else if acc.isEmpty then wordRunsAux cs []
    else String.mk acc.reverse :: wordRunsAux cs []

/-- `re.findall(r"\b\w+\b", s)`. -/
def wordRuns (s : String) : List String := wordRunsAux s.data []

/-- Python `str.split()` (split on whitespace runs, dropping empty parts). -/
def pySplitWsAux : List Char → List Char → List String
  | [], acc => if acc.isEmpty then [] else [String.mk acc.reverse]
  | c :: cs, acc =>
    if c.isWhitespace then
      if acc.isEmpty then pySplitWsAux cs []
      else String.mk acc.reverse :: pySplitWsAux cs []
    else pySplitWsAux cs (c :: acc)

/-- Python `str.split()`. -/
def pySplitWs (s : String) : List String := pySplitWsAux s.data []

/-- `", ".join(l)` and friends. -/
def pyJoin (sep : String) (l : List String) : String := String.intercalate sep l

/-! ## MD5 (RFC 1321), as used by `ResponseCache._generate_key` -/

namespace MD5

/-- Reduce modulo `2³²`. -/
def m32 (x : Nat) : Nat := x % 4294967296

/-- 32-bit addition. -/
def add32 (a b : Nat) : Nat := m32 (a + b)

/-- 32-bit bitwise complement (argument already reduced). -/
def not32 (x : Nat) : Nat := 4294967295 - m32 x

/-- 32-bit left rotation. -/
def rotl32 (x s : Nat) : Nat :=
  m32 (Nat.lor (Nat.shiftLeft (m32 x) s) (Nat.shiftRight (m32 x) (32 - s)))

/-- The per-round additive constants `⌊|sin (i+1)| · 2³²⌋`. -/
def kTable : List Nat := [
  3614090360, 3905402710, 606105819, 3250441966, 4118548399, 1200080426, 2821735955, 4249261313,
  1770035416, 2336552879, 4294925233, 2304563134, 1804603682, 4254626195, 2792965006, 1236535329,
  4129170786, 3225465664, 643717713, 3921069994, 3593408605, 38016083, 3634488961, 3889429448,
  568446438, 3275163606, 4107603335, 1163531501, 2850285829, 4243563512, 1735328473, 2368359562,
  4294588738, 2272392833, 1839030562, 4259657740, 2763975236, 1272893353, 4139469664, 3200236656,
  681279174, 3936430074, 3572445317, 76029189, 3654602809, 3873151461, 530742520, 3299628645,
  4096336452, 1126891415, 2878612391, 4237533241, 1700485571, 2399980690, 4293915773, 2240044497,
  1873313359, 4264355552, 2734768916, 1309151649, 4149444226, 3174756917, 718787259, 3951481745]

/-- The per-round left-rotation amounts. -/
def sTable : List Nat := [
  7, 12, 17, 22, 7, 12, 17, 22, 7, 12, 17, 22, 7, 12, 17, 22,
  5, 9, 14, 20, 5, 9, 14, 20, 5, 9, 14, 20, 5, 9, 14, 20,
  4, 11, 16, 23, 4, 11, 16, 23, 4, 11, 16, 23, 4, 11, 16, 23,
  6, 10, 15, 21, 6, 10, 15, 21, 6, 10, 15, 21, 6, 10, 15, 21]

/-- Decode the `j`-th little-endian 32-bit word of a 64-byte block. -/
def blockWord (block : List Nat) (j : Nat) : Nat :=
  block.getD (4 * j) 0 + 256 * block.getD (4 * j + 1) 0 +
    65536 * block.getD (4 * j + 2) 0 + 16777216 * block.getD (4 * j + 3) 0

/-- One MD5 round applied to the running state `(a, b, c, d)`. -/
def round (block : List Nat) (st : Nat × Nat × Nat × Nat) (i : Nat) :
    Nat × Nat × Nat × Nat :=
  let a := st.1; let b := st.2.1; let c := st.2.2.1; let d := st.2.2.2
  let fg : Nat × Nat :=
    if i < 16 then (Nat.lor (Nat.land b c) (Nat.land (not32 b) d), i)
    else if i < 32 then (Nat.lor (Nat.land d b) (Nat.land (not32 d) c), (5 * i + 1) % 16)
    else if i < 48 then (Nat.xor b (Nat.xor c d), (3 * i + 5) % 16)
    else (Nat.xor c (Nat.lor b (not32 d)), (7 * i) % 16)
  let f := add32 (add32 (add32 fg.1 a) (kTable.getD i 0)) (blockWord block fg.2)
  (d, add32 b (rotl32 f (sTable.getD i 0)), b, c)

/-- Compress one 64-byte block into the chaining state. -/
def compress (st : Nat × Nat × Nat × Nat) (block : List Nat) :
    Nat × Nat × Nat × Nat :=
  let r := (List.range 64).foldl (round block) st
  (add32 st.1 r.1, add32 st.2.1 r.2.1, add32 st.2.2.1 r.2.2.1, add32 st.2.2.2 r.2.2.2)

/-- MD5 padding: append `0x80`, zero bytes up to 56 mod 64, then the
original bit length as a 64-bit little-endian integer. -/
def pad (msg : List Nat) : List Nat :=
  let bitLen := 8 * msg.length
  let r := (msg.length + 1) % 64
  let z := (120 - r) % 64
  msg ++ [128] ++ List.replicate z 0 ++
    ((List.range 8).map fun i => (Nat.shiftRight (bitLen % 18446744073709551616) (8 * i)) % 256)

/-- Fold `compress` over the 64-byte blocks of a byte list.  The `fuel`
argument (any bound on the number of blocks, e.g. the list length) only makes
the recursion structural; it never runs out on padded input. -/
def foldBlocks (fuel : Nat) (st : Nat × Nat × Nat × Nat)
    (compress : Nat × Nat × Nat × Nat → List Nat → Nat × Nat × Nat × Nat)
    (l : List Nat) : Nat × Nat × Nat × Nat :=
  match fuel with
  | 0 => st
  | f + 1 =>
    if l.isEmpty then st
    else foldBlocks f (compress st (l.take 64)) compress (l.drop 64)

/-- Serialize one 32-bit word as 4 little-endian bytes. -/
def wordBytes (w : Nat) : List Nat :=
  [w % 256, (w / 256) % 256, (w / 65536) % 256, (w / 16777216) % 256]

/-- Hex digit character (lowercase). -/
def hexChar (n : Nat) : Char :=
  if n < 10 then Char.ofNat (48 + n) else Char.ofNat (87 + n)

/-- Two-character lowercase hex rendering of a byte. -/
def byteHex (b : Nat) : List Char := [hexChar (b / 16), hexChar (b % 16)]

/-- UTF-8 encoding of a single character (`str.encode()`). -/
def utf8Char (c : Char) : List Nat :=
  let n := c.toNat
  if n < 128 then [n]
  else if n < 2048 then [192 + n / 64, 128 + n % 64]
  else if n < 65536 then [224 + n / 4096, 128 + (n / 64) % 64, 128 + n % 64]
  else [240 + n / 262144, 128 + (n / 4096) % 64, 128 + (n / 64) % 64, 128 + n % 64]

/-- UTF-8 encoding of a string (`str.encode()`). -/
def strBytes (s : String) : List Nat :=
  (s.data.map utf8Char).foldr (fun a b => a ++ b) []

/-- `hashlib.md5(s.encode()).hexdigest()`. -/
def md5Hex (s : String) : String :=
  let padded := pad (strBytes s)
  let st := foldBlocks padded.length
    (1732584193, 4023233417, 2562383102, 271733878) compress padded
  String.mk (((wordBytes st.1 ++ wordBytes st.2.1 ++ wordBytes st.2.2.1 ++
    wordBytes st.2.2.2).map byteHex).foldr (fun a b => a ++ b) [])

end MD5

/-! ## `cache.py` — `ResponseCache`

The embedding covers the in-memory backend (`redis_url=None`, so
`self.redis_client is None`): every `if self.redis_client:` branch of the
source is statically dead and is omitted.  The payload dict is abstracted to
a type parameter `α`; `time.time()` is passed in explicitly as `now : ℚ`.
Extra `**kwargs` are a list of `(name, value)` pairs in the order supplied
at the call site (Python keyword arguments iterate in that order), with
`Option` values so the `if v is not None` filter is represented; values are
already rendered to strings as `f"{k}:{v}"` would render them. -/

/-- A `self.memory_cache` entry: `{"data": ..., "expires_at": ...}`. -/
structure MemEntry (α : Type) where
  data : α
  expires_at : ℚ
  deriving Repr, DecidableEq

/-- The mutable state of a `ResponseCache` (in-memory backend). -/
structure CacheState (α : Type) where
  ttl : ℚ
  ns : String
  disabled : Bool
  hits : Nat
  misses : Nat
  errors : Nat
  memory_cache : List (String × MemEntry α)
  deriving Repr

/-- A freshly constructed `ResponseCache(redis_url=None)` with the
constructor defaults `ttl=3600`, `namespace="rag"`, `disabled=False`. -/
def initCache (α : Type) : CacheState α :=
  { ttl := 3600, ns := "rag", disabled := false,
    hits := 0, misses := 0, errors := 0, memory_cache := [] }

/-- `ResponseCache._generate_key`. -/
def generateKey (disabled : Bool) (ns : String) (query : String)
    (intent : Option String) (kwargs : List (String × Option String)) : String :=
  if disabled then ""
  else
    let query := pyStrip (pyLower query)
    let key_parts := [query] ++
      (match intent with
       | some i => if i = "" then [] else ["intent:" ++ pyLower i]
       | none => []) ++
      ((kwargs.filter fun kv => kv.2.isSome).map fun kv => kv.1 ++ ":" ++ kv.2.getD "")
    let key_str := pyJoin ":" key_parts
    ns ++ ":" ++ MD5.md5Hex key_str

/-- Python `dict` insertion: replace in place if the key exists, else append. -/
def dictInsert {β : Type} : List (String × β) → String → β → List (String × β)
  | [], k, v => [(k, v)]
  | (k', v') :: rest, k, v =>
    if k' = k then (k, v) :: rest else (k', v') :: dictInsert rest k v

/-- Python `dict` lookup. -/
def dictFind {β : Type} (l : List (String × β)) (k : String) : Option β :=
  (l.find? fun kv => kv.1 = k).map fun kv => kv.2

/-- Python `del d[k]`. -/
def dictErase {β : Type} : List (String × β) → String → List (String × β)
  | [], _ => []
  | (k', v') :: rest, k =>
    if k' = k then rest else (k', v') :: dictErase rest k

/-- `ResponseCache.get` (in-memory backend), returning the result together
with the updated state. -/
def cacheGet {α : Type} (st : CacheState α) (now : ℚ) (query : String)
    (intent : Option String) (kwargs : List (String × Option String)) :
    Option α × CacheState α :=
  if st.disabled then (none, st)
  else
    let key := generateKey st.disabled st.ns query intent kwargs
    match dictFind st.memory_cache key with
    | some item =>
      if now < item.expires_at then (some item.data, { st with hits := st.hits + 1 })
      else
        (none, { st with memory_cache := dictErase st.memory_cache key,
                         misses := st.misses + 1 })
    | none => (none, { st with misses := st.misses + 1 })

/-- The eviction scan of `ResponseCache.set`: first key attaining the strict
minimum of `expires_at` (`oldest_time` starts at `inf`, comparison is `<`). -/
def oldestKey {α : Type} (l : List (String × MemEntry α)) : Option String :=
  (l.foldl (fun acc kv =>
      match acc with
      | none => some (kv.1, kv.2.expires_at)
      | some best => if kv.2.expires_at < best.2 then some (kv.1, kv.2.expires_at) else some best)
    none).map fun best => best.1

/-- `ResponseCache.set` (in-memory backend), returning the reported success
flag together with the updated state. -/
def cacheSet {α : Type} (st : CacheState α) (now : ℚ) (query : String)
    (data : α) (intent : Option String) (ttlOverride : Option ℚ)
    (kwargs : List (String × Option String)) : Bool × CacheState α :=
  if st.disabled then (false, st)
  else
    let key := generateKey st.disabled st.ns query intent kwargs
    let cache_ttl := ttlOverride.getD st.ttl
    let mc := dictInsert st.memory_cache key ⟨data, now + cache_ttl⟩
    let mc :=
      if 1000 < mc.length then
        match oldestKey mc with
        | some k => if k = "" then mc else dictErase mc k
        | none => mc
      else mc
    (true, { st with memory_cache := mc })

/-- The fields of the dict returned by `ResponseCache.get_stats` for the
in-memory backend (no Redis-only fields). -/
structure CacheStats where
  hits : Nat
  misses : Nat
  errors : Nat
  total : Nat
  hit_ratio : ℚ
  backend : String
  size : Nat
  deriving Repr, DecidableEq

/-- `ResponseCache.get_stats` (in-memory backend); `none` models the early
`{"status": "disabled"}` return. -/
def getStats {α : Type} (st : CacheState α) : Option CacheStats :=
  if st.disabled then none
  else
    let total := st.hits + st.misses
    some { hits := st.hits, misses := st.misses, errors := st.errors,
           total := total,
           hit_ratio := if 0 < total then (st.hits : ℚ) / (total : ℚ) else 0,
           backend := "memory", size := st.memory_cache.length }

/-! ## `multi_hop.py` — `MultiHopReasoner`

The search engine is abstracted as a function `String → Nat → List
SearchResult` (query and `top_k`); search-result dicts are modelled with
`Option` fields read via the same defaults as the source's `.get` calls.
The conversation-context dict is a structure of optional fields, one per key
the source reads. -/

/-- A search-result dict, with exactly the keys `multi_hop.py` reads. -/
structure SearchResult where
  similarity_score : Option ℚ := none
  content : Option String := none
  id : Option String := none
  chunk_id : Option String := none
  source : Option String := none
  deriving Repr, DecidableEq

/-- The conversation-context dict (`context.get(...)` keys only).  A `none`
field is an absent key; note Python truthiness makes `some []` behave like an
absent key wherever the source tests `if context.get(...)`. -/
structure Context where
  previous_confidence : Option ℚ := none
  conversation_depth : Option Int := none
  recentTopics : Option (List String) := none
  recentSessionEntities : Option (List String) := none
  mentionedEntities : Option (List String) := none
  conversationDepth : Option Int := none
  deriving Repr

/-- Python truthiness of an optional list value. -/
def truthyList {γ : Type} (o : Option (List γ)) : Bool :=
  match o with
  | some (_ :: _) => true
  | _ => false

/-- `MultiHopReasoner.complex_patterns`, each regex `l₁.*l₂.*…` represented
by its list of literal pieces. -/
def complexPatterns : List (List String) :=
  [["what if", "fail"],
   ["after", "then", "how"],
   ["but", "still", "problem"],
   ["tried", "but", "not work"],
   ["followed", "step", "error"],
   ["installed", "but", "can" ++ apos ++ "t"],
   ["updated", "now", "issue"]]

/-- `MultiHopReasoner.ubuntu_follow_up_concepts` (dict insertion order). -/
def ubuntuFollowUpConcepts : List (String × List String) :=
  [("package_manager", ["dependencies", "repository", "ppa", "apt", "dpkg"]),
   ("system_update", ["kernel", "driver", "compatibility", "rollback"]),
   ("network", ["firewall", "dns", "routing", "interface"]),
   ("security", ["permissions", "sudo", "authentication", "certificates"]),
   ("hardware", ["driver", "firmware", "compatibility", "detection"]),
   ("services", ["systemctl", "daemon", "startup", "logs"])]

/-- `MultiHopReasoner.should_use_multihop`. -/
def shouldUseMultihop (query : String) (ctx : Context) : Bool :=
  let query_lower := pyLower query
  complexPatterns.any (fun p => matchSeq (p.map String.data) query_lower.data) ||
    decide (ctx.previous_confidence.getD 1 < 1/2) ||
    (decide (2 < ctx.conversation_depth.getD 0) && containsSub "error" query_lower)

/-- The result dict of one hop. -/
structure HopResult where
  hop_number : Nat
  query : String
  evidence : List SearchResult
  confidence : ℚ
  concepts_found : List String
  deriving Repr, DecidableEq

/-- Python `sum(...)` over rationals (left fold from `0`). -/
def pySum (l : List ℚ) : ℚ := l.foldl (· + ·) 0

/-- `MultiHopReasoner._process_hop_results` (its `context` argument is never
read by the source, so it is omitted). -/
def processHopResults (results : List SearchResult) (query : String)
    (hop_number : Nat) : HopResult :=
  if results.isEmpty then
    { hop_number := hop_number, query := query, evidence := [],
      confidence := 0, concepts_found := [] }
  else
    let threshold : ℚ := if hop_number = 1 then 3/10 else 1/5
    let relevant_results := results.filter fun r => threshold ≤ r.similarity_score.getD 0
    let concepts_found := relevant_results.foldl (fun acc r =>
      let content := pyLower (r.content.getD "")
      ubuntuFollowUpConcepts.foldl (fun acc cat =>
        cat.2.foldl (fun acc concept =>
          if containsSub concept content && !acc.contains concept then acc ++ [concept]
          else acc) acc) acc) []
    let hop_confidence : ℚ :=
      if relevant_results.isEmpty then 0
      else pySum (relevant_results.map fun r => r.similarity_score.getD 0) /
             (relevant_results.length : ℚ) * (9/10) ^ (hop_number - 1)
    { hop_number := hop_number, query := query, evidence := relevant_results,
      confidence := hop_confidence, concepts_found := concepts_found }

/-- `str(context["recentTopics"])` for a list of strings that contain no
apostrophe (Python renders such a list with single-quoted items). -/
def pyReprStrList (l : List String) : String :=
  "[" ++ pyJoin ", " (l.map fun s => apos ++ s ++ apos) ++ "]"

/-- `MultiHopReasoner._calculate_concept_priority` (its `query` argument is
already lower-cased by the caller). -/
def calculateConceptPriority (concept : String) (query : String) (ctx : Context) : ℚ :=
  let priority : ℚ := 1/2
  let priority := if containsSub "error" query &&
      ["dependencies", "permissions", "driver"].contains concept then priority + 3/10 else priority
  let priority := if containsSub "install" query &&
      ["repository", "ppa", "dependencies"].contains concept then priority + 3/10 else priority
  let priority := if containsSub "update" query &&
      ["kernel", "driver", "compatibility"].contains concept then priority + 3/10 else priority
  let priority := if truthyList ctx.recentTopics &&
      containsSub concept (pyLower (pyReprStrList (ctx.recentTopics.getD [])))
    then priority - 1/5 else priority
  min 1 (max 0 priority)

/-- Stable insertion (descending by `key`, earlier elements win ties), the
order produced by Python's stable `list.sort(key=..., reverse=True)`. -/
def insDescBy {γ : Type} (key : γ → ℚ) (x : γ) : List γ → List γ
  | [] => [x]
  | y :: ys => if key y ≤ key x then x :: y :: ys else y :: insDescBy key x ys

/-- Stable descending sort by a rational key. -/
def sortDescBy {γ : Type} (key : γ → ℚ) : List γ → List γ
  | [] => []
  | x :: xs => insDescBy key x (sortDescBy key xs)

/-- `MultiHopReasoner._extract_follow_up_concepts`. -/
def extractFollowUpConcepts (hop_result : HopResult) (original_query : String)
    (ctx : Context) : List String :=
  let query_lower := pyLower original_query
  let prioritized := hop_result.concepts_found.filterMap fun concept =>
    let priority := calculateConceptPriority concept query_lower ctx
    if 1/2 < priority then some (concept, priority) else none
  ((sortDescBy (fun p => p.2) prioritized).take 3).map fun p => p.1

/-- The stop-word set of `MultiHopReasoner._extract_key_terms`. -/
def keyTermStopWords : List String :=
  ["the", "a", "an", "and", "or", "but", "in", "on", "at", "to", "for", "of",
   "with", "by", "how", "what", "when", "where", "why", "is", "are", "was",
   "were", "do", "does", "did", "can", "could", "should", "would"]

/-- `MultiHopReasoner._extract_key_terms`. -/
def extractKeyTerms (query : String) : List String :=
  (((wordRuns (pyLower query)).filter fun w =>
    2 < w.length && !keyTermStopWords.contains w).take 5)

/-- The f-string template table of `MultiHopReasoner._generate_follow_up_query`
(each entry already instantiated at its own key, as in the source). -/
def queryTemplates : List (String × String) :=
  [("dependencies", "Ubuntu dependencies issues with"),
   ("repository", "Ubuntu repository configuration for"),
   ("driver", "Ubuntu driver installation troubleshooting"),
   ("permissions", "Ubuntu permissions fix for"),
   ("kernel", "Ubuntu kernel compatibility issues")]

/-- `MultiHopReasoner._generate_follow_up_query` (its `reasoning_state`
argument is never read by the source, so it is omitted). -/
def generateFollowUpQuery (concept : String) (original_query : String) : String :=
  let key_terms := extractKeyTerms original_query
  match queryTemplates.find? fun kv => kv.1 = concept with
  | some kv =>
    if !key_terms.isEmpty then kv.2 ++ " " ++ pyJoin " " (key_terms.take 2)
    else kv.2
  | none => "Ubuntu " ++ concept ++ " " ++ pyJoin " " (key_terms.take 2)

/-- `MultiHopReasoner._should_continue_reasoning` (it reads only
`reasoning_state["confidence_scores"]`). -/
def shouldContinueReasoning (confidence_scores : List ℚ) : Bool :=
  if !confidence_scores.isEmpty &&
      decide (4/5 < pySum confidence_scores / (confidence_scores.length : ℚ)) then false
  else if !confidence_scores.isEmpty &&
      decide (confidence_scores.getLast?.getD 0 < 1/5) then false
  else true

/-- The mutable `reasoning_state` dict of `MultiHopReasoner.reason`. -/
structure ReasoningState where
  original_query : String
  hops : List HopResult
  evidence : List SearchResult
  queries : List String
  confidence_scores : List ℚ
  deriving Repr

/-- `list[-n:]`. -/
def lastN {γ : Type} (n : Nat) (l : List γ) : List γ := l.drop (l.length - n)

/-- `MultiHopReasoner._enhance_initial_query`. -/
def enhanceInitialQuery (query : String) (ctx : Context) : String :=
  let enhanced :=
    if truthyList ctx.recentTopics then
      let recent_topics := lastN 2 (ctx.recentTopics.getD [])
      if !recent_topics.isEmpty then
        query ++ " (context: " ++ pyJoin " " recent_topics ++ ")"
      else query
    else query
  if truthyList ctx.recentSessionEntities then
    let entities := lastN 3 (ctx.recentSessionEntities.getD [])
    if !entities.isEmpty then enhanced ++ " regarding " ++ pyJoin " " entities
    else enhanced
  else enhanced

/-- `MultiHopReasoner._is_valuable_addition`. -/
def isValuableAddition (new_content existing_content : String) : Bool :=
  let new_words := (pySplitWs (pyLower new_content)).dedup
  let existing_words := pySplitWs (pyLower existing_content)
  let overlap := (new_words.filter fun w => existing_words.contains w).length
  let overlap_ratio : ℚ :=
    if !new_words.isEmpty then (overlap : ℚ) / (new_words.length : ℚ) else 0
  decide (overlap_ratio < 7/10) && decide (20 < new_content.length)

/-- `MultiHopReasoner._synthesize_multihop_answer`. -/
def synthesizeMultihopAnswer (state : ReasoningState) : String :=
  if state.evidence.isEmpty then
    "I couldn" ++ apos ++ "t find sufficient information to answer your question."
  else
    let main_answer :=
      match state.hops with
      | hop0 :: _ =>
        match hop0.evidence with
        | ev :: _ => ev.content.getD ""
        | [] => ""
      | [] => ""
    let additional_info := (state.hops.drop 1).foldl (fun acc hop =>
      acc ++ ((hop.evidence.take 1).filterMap fun ev =>
        let content := ev.content.getD ""
        if content ≠ "" && isValuableAddition content main_answer then some content
        else none)) []
    if main_answer ≠ "" then
      main_answer ++
        (if !additional_info.isEmpty then
          "\n\nAdditional considerations:\n" ++
            (((additional_info.take 2).enumFrom 1).foldl
              (fun acc p => acc ++ toString p.1 ++ ". " ++ p.2 ++ "\n") "")
        else "")
    else "Based on the available information: " ++ pyJoin "; " (additional_info.take 3)

/-- `MultiHopReasoner._calculate_overall_confidence`. -/
def calculateOverallConfidence (state : ReasoningState) : ℚ :=
  if state.confidence_scores.isEmpty then 0
  else
    let weights : List ℚ := [1, 4/5, 3/5, 2/5]
    let sums := (state.confidence_scores.enumFrom 0).foldl (fun acc p =>
      let weight := weights.getD (min p.1 (weights.length - 1)) 0
      (acc.1 + p.2 * weight, acc.2 + weight)) ((0 : ℚ), (0 : ℚ))
    let overall := if 0 < sums.2 then sums.1 / sums.2 else 0
    let hop_bonus := min (1/10) ((state.hops.length : ℚ) * 3/100)
    min 1 (overall + hop_bonus)

/-- The result dict of `MultiHopReasoner.reason`. -/
structure MultiHopResponse where
  answer : String
  evidence : List SearchResult
  confidence : ℚ
  queries_used : List String
  hops_performed : Nat
  is_multihop : Bool
  failure_reason : Option String := none
  deriving Repr

/-- `MultiHopReasoner._create_failure_response`. -/
def createFailureResponse (query reason : String) : MultiHopResponse :=
  { answer := "I apologize, but I couldn" ++ apos ++
      "t fully process your complex question: " ++ reason ++
      ". Could you try breaking it down into simpler parts?",
    evidence := [], confidence := 1/10, queries_used := [query],
    hops_performed := 0, is_multihop := true, failure_reason := some reason }

/-- The `while` loop of `MultiHopReasoner.reason` (hops 2..max_hops).  The
`fuel` argument only makes the recursion structural: the loop body always
increments `current_hop`, so `max_hops` iterations of fuel can never be
exhausted before the `current_hop ≤ max_hops` test fails. -/
def reasonLoop (search : String → Nat → List SearchResult) (query : String)
    (ctx : Context) (max_hops : Nat) :
    Nat → Nat → ReasoningState → List String → ReasoningState
  | 0, _, state, _ => state
  | fuel + 1, current_hop, state, follow_up_concepts =>
    if current_hop ≤ max_hops ∧ ¬follow_up_concepts.isEmpty ∧
        shouldContinueReasoning state.confidence_scores then
      match follow_up_concepts with
      | [] => state
      | concept :: rest =>
        let follow_up_query := generateFollowUpQuery concept query
        let state := { state with queries := state.queries ++ [follow_up_query] }
        let hop_results := search follow_up_query 2
        if hop_results.isEmpty then
          reasonLoop search query ctx max_hops fuel (current_hop + 1) state
            (concept :: rest)
        else
          let hop_result := processHopResults hop_results follow_up_query current_hop
          let state :=
            { state with hops := state.hops ++ [hop_result],
                         evidence := state.evidence ++ hop_result.evidence,
                         confidence_scores := state.confidence_scores ++ [hop_result.confidence] }
          reasonLoop search query ctx max_hops fuel (current_hop + 1) state rest
    else state

/-- `MultiHopReasoner.reason` (`max_hops` defaults to 3 in the constructor,
as in `app.py`'s `MultiHopReasoner(search_engine)`). -/
def reason (search : String → Nat → List SearchResult) (query : String)
    (ctx : Context) (max_hops : Nat := 3) : MultiHopResponse :=
  let enhanced_query := enhanceInitialQuery query ctx
  let initial_results := search enhanced_query 3
  if initial_results.isEmpty then
    createFailureResponse query "No initial results found"
  else
    let hop_result := processHopResults initial_results query 1
    let state : ReasoningState :=
      { original_query := query, hops := [hop_result],
        evidence := hop_result.evidence, queries := [enhanced_query],
        confidence_scores := [hop_result.confidence] }
    let follow_up_concepts := extractFollowUpConcepts hop_result query ctx
    let state := reasonLoop search query ctx max_hops max_hops 2 state follow_up_concepts
    { answer := synthesizeMultihopAnswer state,
      evidence := state.evidence,
      confidence := calculateOverallConfidence state,
      queries_used := state.queries,
      hops_performed := state.hops.length,
      is_multihop := true }

/-! ## `multi_hop.py` — `MultiHopReasoner._merge_results`

Documents flowing through `MultiHopReasoner.retrieve` are dicts; the fields
below are exactly those `_merge_results` reads.  `hash(content[:100])` (the
dedup fallback for documents without any id field) is modelled injectively by
the content prefix itself, wrapped in its own constructor — a Python `int`
never equals a Python `str`, so hash keys and id keys never collide. -/

/-- A retrieved document dict as seen by `_merge_results`. -/
structure HopDoc where
  id : Option String := none
  chunk_id : Option String := none
  document_id : Option String := none
  content : Option String := none
  hop_number : Option Nat := none
  score : Option ℚ := none
  deriving Repr, DecidableEq

/-- A deduplication key: a string id, or the `hash(content[:100])` fallback. -/
inductive DKey where
  | strKey (s : String)
  | hashKey (prefix100 : String)
  deriving Repr, DecidableEq

/-- Python `a or b` chaining on optional strings: `none` and `""` are falsy. -/
def pyOrStr : Option String → Option String
  | some s => if s = "" then none else some s
  | none => none

/-- The dedup key of `_merge_results`:
`doc.get("id") or doc.get("chunk_id") or doc.get("document_id") or
hash(doc.get("content", "")[:100])`. -/
def dedupKey (d : HopDoc) : DKey :=
  match pyOrStr d.id with
  | some s => .strKey s
  | none =>
    match pyOrStr d.chunk_id with
    | some s => .strKey s
    | none =>
      match pyOrStr d.document_id with
      | some s => .strKey s
      | none => .hashKey ((d.content.getD "").take 100)

/-- Stable insertion (ascending by `key`, earlier elements win ties), the
order produced by Python's stable `sorted(key=...)`. -/
def insAscBy {γ κ : Type} [LinearOrder κ] (key : γ → κ) (x : γ) :
    List γ → List γ
  | [] => [x]
  | y :: ys => if key x ≤ key y then x :: y :: ys else y :: insAscBy key x ys

/-- Stable ascending sort. -/
def sortAscBy {γ κ : Type} [LinearOrder κ] (key : γ → κ) : List γ → List γ
  | [] => []
  | x :: xs => insAscBy key x (sortAscBy key xs)

/-- First-occurrence deduplication by a key function (the
`if doc_id not in seen_ids` loop); `seen` holds keys already emitted. -/
def dedupFirstBy {γ κ : Type} [DecidableEq κ] (key : γ → κ) :
    List κ → List γ → List γ
  | _, [] => []
  | seen, x :: xs =>
    if key x ∈ seen then dedupFirstBy key seen xs
    else x :: dedupFirstBy key (key x :: seen) xs

/-- `MultiHopReasoner._merge_results`.  The final `sort` by `score`
(descending) never raises in this typed embedding, so the `except` branch of
the source is dead here. -/
def mergeResults (docs : List HopDoc) : List HopDoc :=
  let sorted_docs := sortAscBy (fun d => d.hop_number.getD 0) docs
  let unique_docs := dedupFirstBy dedupKey [] sorted_docs
  sortDescBy (fun d => d.score.getD 0) unique_docs

/-! ## `query_transformer.py` — `QueryOptimizer` -/

/-- The `QueryTransformation` dataclass. -/
structure QueryTransformation where
  original_query : String
  transformed_query : String
  transformation_type : String
  confidence : ℚ
  reasoning : String
  deriving Repr, DecidableEq

/-- `UbuntuQueryTransformer.get_best_transformations`, as a function of the
transformation list produced by `transform_query`. -/
def getBestTransformations (all_transformations : List QueryTransformation)
    (max_transforms : Nat := 3) : List QueryTransformation :=
  let high_confidence := all_transformations.filter fun t => decide (7/10 ≤ t.confidence)
  if max_transforms ≤ high_confidence.length then high_confidence.take max_transforms
  else
    let medium_confidence := all_transformations.filter fun t =>
      decide (1/2 ≤ t.confidence) && decide (t.confidence < 7/10)
    (high_confidence ++ medium_confidence).take max_transforms

/-- The dict returned by `QueryOptimizer.optimize_for_retrieval`
(`transformation_details` repeats the transformation list and is omitted). -/
structure OptimizationResult where
  original_query : String
  optimized_queries : List String
  transformations_applied : Nat
  search_strategy : String
  deriving Repr, DecidableEq

/-- `QueryOptimizer.optimize_for_retrieval`, as a function of the query and
of the transformation list produced by `self.transformer.transform_query`. -/
def optimizeForRetrieval (query : String)
    (all_transformations : List QueryTransformation) : OptimizationResult :=
  let transformations := getBestTransformations all_transformations 3
  let optimized_queries := query :: transformations.map fun t => t.transformed_query
  let unique_queries := dedupFirstBy id [] optimized_queries
  { original_query := query,
    optimized_queries := unique_queries,
    transformations_applied := transformations.length,
    search_strategy := if 2 < unique_queries.length then "parallel" else "sequential" }

/-! ## `answer_synthesizer.py` / `app.py` — the no-results fallback path -/

/-- `AnswerSynthesizer._generate_fallback_response`'s keyword table, in dict
insertion order (the loop also visits the `"default"` entry). -/
def synthFallbackResponses : List (String × String) :=
  [("update", "I don" ++ apos ++ "t have specific information about that update. Try " ++
      apos ++ "sudo apt update && sudo apt upgrade" ++ apos ++
      " for general updates, or provide more details about what you" ++ apos ++
      "re trying to update."),
   ("install", "I couldn" ++ apos ++
      "t find installation instructions for that. Could you specify what software you" ++
      apos ++ "re trying to install? You can also try " ++ apos ++
      "apt search [software-name]" ++ apos ++ " to find packages."),
   ("printer", "For printer setup issues, first ensure your printer is connected and powered on. Then go to Settings > Printers to add or configure your printer. What specific printer model are you using?"),
   ("network", "For network issues, try checking your connection with " ++ apos ++
      "ping google.com" ++ apos ++
      ". Could you describe the specific network problem you" ++ apos ++
      "re experiencing?"),
   ("error", "I need more details about the error. Could you share the exact error message or describe what happens when you encounter this issue?"),
   ("default", "I couldn" ++ apos ++ "t find specific information about that. Could you provide more details or rephrase your question? You can also try the Ubuntu documentation or community forums.")]

/-- `AnswerSynthesizer._generate_fallback_response`. -/
def generateFallbackResponse (query : String) (ctx : Option Context) : String :=
  let query_lower := pyLower query
  let fallback :=
    match synthFallbackResponses.find? fun kv => containsSub kv.1 query_lower with
    | some kv => kv.2
    | none => ((synthFallbackResponses.find? fun kv => kv.1 = "default").map
        fun kv => kv.2).getD ""
  match ctx with
  | some c =>
    if truthyList c.recentSessionEntities then
      fallback ++ "\n\nBased on our conversation about " ++
        pyJoin ", " ((c.recentSessionEntities.getD []).take 2) ++
        ", you might also want to ask about related configuration or troubleshooting steps."
    else fallback
  | none => fallback

/-- One entry of a `RAGResponse.sources` list built by `app.retrieve`. -/
structure SourceItem where
  id : String
  content : String
  similarity : ℚ
  source : String
  deriving Repr, DecidableEq

/-- The `RAGResponse` pydantic model of `app.py`. -/
structure RAGResponse where
  response : String
  sources : List SourceItem := []
  confidence : ℚ := 0
  rewritten_query : Option String := none
  deriving Repr, DecidableEq

/-- `app.fallback_response`'s `generic_responses` list. -/
def genericResponses : List String :=
  ["I" ++ apos ++ "m not sure how to help with that specific Ubuntu issue. Could you provide more details?",
   "I don" ++ apos ++ "t have enough information about that topic. Could you rephrase your question?",
   "That" ++ apos ++ "s a good question about Ubuntu. Let me check the documentation and get back to you.",
   "I" ++ apos ++ "m still learning about Ubuntu support. Could you ask in a different way?",
   "I don" ++ apos ++ "t have the answer to that question yet. Have you tried searching the Ubuntu forums?"]

/-- `app.fallback_response`'s `intent_responses` dict. -/
def intentResponses : List (String × String) :=
  [("MakeUpdate", "It seems you" ++ apos ++
      "re trying to update or install software. The basic command for updating Ubuntu is " ++
      apos ++ "sudo apt update && sudo apt upgrade" ++ apos ++
      ". Could you tell me more about what you" ++ apos ++ "re trying to update?"),
   ("SetupPrinter", "For printer setup issues, first make sure your printer is connected and powered on. Then go to Settings > Printers to add or configure your printer."),
   ("ShutdownComputer", "To shut down your Ubuntu computer, you can use the command " ++
      apos ++ "sudo shutdown now" ++ apos ++
      " or click on the power icon in the top-right menu and select " ++ apos ++
      "Power Off" ++ apos ++ "."),
   ("SoftwareRecommendation", "I can help recommend software for Ubuntu. Could you tell me more about what type of application you" ++
      apos ++ "re looking for?")]

/-- `app.fallback_response`.  `random.choice` over the generic list is
modelled by an arbitrary index `pick` reduced modulo the list length; the
intent branch (the only one the claims exercise) never reads it.  The `query`
parameter is never read by the source. -/
def fallbackResponse (query : String) (intent : Option String) (pick : Nat) :
    RAGResponse :=
  let canned : Option String :=
    match intent with
    | some i => if i = "" then none else (intentResponses.find? fun kv => kv.1 = i).map fun kv => kv.2
    | none => none
  let response :=
    match canned with
    | some r => r
    | none => genericResponses.getD (pick % genericResponses.length) ""
  { response := response, sources := [], confidence := 3/10 }

/-- The `if not results:` branch of `app.retrieve` (lines 476–491): what the
endpoint returns when retrieval produced no results.  `has_synthesizer`
states whether startup installed the global `answer_synthesizer`;
`rewritten_query` is the already-computed rewritten query of the enclosing
request (`None` when it equals the original). -/
def retrieveNoResults (query : String) (intent : Option String)
    (ctx : Option Context) (has_synthesizer : Bool)
    (rewritten_query : Option String) (pick : Nat) : RAGResponse :=
  if has_synthesizer then
    { response := generateFallbackResponse query ctx, sources := [],
      confidence := 3/10, rewritten_query := rewritten_query }
  else fallbackResponse query intent pick

/-! ## Helper lemmas -/

section ProofSection

/- Batteries marks rational arithmetic `irreducible`, which blocks `decide`
from evaluating the embedded score computations; restore the default
reducibility locally for the proofs. -/
attribute [local semireducible] Rat.mul Rat.add Rat.sub Rat.inv

theorem pySum_foldl (a : ℚ) (l : List ℚ) : l.foldl (· + ·) a = a + l.sum := by
  induction l generalizing a with
  | nil => simp
  | cons x xs ih => simp only [List.foldl_cons, ih, List.sum_cons]; ring

theorem pySum_eq_sum (l : List ℚ) : pySum l = l.sum := by
  simpa [pySum] using pySum_foldl 0 l

theorem dedupFirstBy_mem {γ κ : Type} [DecidableEq κ] (key : γ → κ)
    (seen : List κ) (l : List γ) (d : γ) (h : d ∈ dedupFirstBy key seen l) :
    d ∈ l := by
  induction l generalizing seen with
  | nil => simp [dedupFirstBy] at h
  | cons x xs ih =>
    simp only [dedupFirstBy] at h
    split at h
    · exact List.mem_cons_of_mem _ (ih _ h)
    · rcases List.mem_cons.mp h with h | h
      · exact h ▸ List.mem_cons_self _ _
      · exact List.mem_cons_of_mem _ (ih _ h)

theorem dedupFirstBy_key_not_seen {γ κ : Type} [DecidableEq κ] (key : γ → κ)
    (seen : List κ) (l : List γ) (d : γ) (h : d ∈ dedupFirstBy key seen l) :
    key d ∉ seen := by
  induction l generalizing seen with
  | nil => simp [dedupFirstBy] at h
  | cons x xs ih =>
    simp only [dedupFirstBy] at h
    split at h
    · exact ih _ h
    · rcases List.mem_cons.mp h with h | h
      · subst h; assumption
      · intro hmem
        exact ih _ h (List.mem_cons_of_mem _ hmem)

theorem dedupFirstBy_nodup_keys {γ κ : Type} [DecidableEq κ] (key : γ → κ)
    (seen : List κ) (l : List γ) :
    ((dedupFirstBy key seen l).map key).Nodup := by
  induction l generalizing seen with
  | nil => simp [dedupFirstBy]
  | cons x xs ih =>
    simp only [dedupFirstBy]
    split
    · exact ih _
    · simp only [List.map_cons, List.nodup_cons]
      refine ⟨?_, ih _⟩
      intro hmem
      rcases List.mem_map.mp hmem with ⟨d, hd, hkey⟩
      exact dedupFirstBy_key_not_seen key _ _ d hd (hkey ▸ List.mem_cons_self _ _)

/-- `countP` of documents whose dedup key is `k`. -/
def countKeyD (k : DKey) (l : List HopDoc) : Nat :=
  l.countP fun d => decide (dedupKey d = k)

/-! ## C10 — `get_stats` hit ratio -/

/-- C10: `ResponseCache.get_stats` never divides by zero: for every counter
state of an enabled cache, the reported `hit_ratio` is
`hits / (hits + misses)` when `hits + misses > 0` and `0` otherwise. -/
theorem cache_stats_hit_ratio {α : Type} (st : CacheState α)
    (h : st.disabled = false) :
    (getStats st).map (fun s => s.hit_ratio) =
      some (if 0 < st.hits + st.misses
            then (st.hits : ℚ) / ((st.hits + st.misses : ℕ) : ℚ) else 0) := by
  simp [getStats, h]

/-- Witness for C10 at a concrete counter state (3 hits, 1 miss). -/
theorem cache_stats_hit_ratio_witness :
    ({ initCache Nat with hits := 3, misses := 1 } : CacheState Nat).disabled = false ∧
    (getStats ({ initCache Nat with hits := 3, misses := 1 } : CacheState Nat)).map
        (fun s => s.hit_ratio) = some (if 0 < 3 + 1 then ((3 : ℕ) : ℚ) / (((3 + 1 : ℕ) : ℕ) : ℚ) else 0) :=
  ⟨rfl, cache_stats_hit_ratio _ rfl⟩

/-! ## C2 — `should_use_multihop` trigger examples -/

/-- C2 counterexample: contrary to the claim, the query
`"I tried updating but the error still shows"` with a default (empty)
context does **not** trigger multi-hop — none of the seven
`complex_patterns` regexes matches it (the closest, `tried.*but.*not work`,
requires the text `not work`). -/
theorem should_use_multihop_tried_counterexample :
    shouldUseMultihop "I tried updating but the error still shows" {} = false := by
  decide

/-- C2 amended: with a default (empty) conversation context,
`should_use_multihop` returns `false` both for
`"I tried updating but the error still shows"` and for `"What is apt?"`. -/
theorem should_use_multihop_examples :
    shouldUseMultihop "I tried updating but the error still shows" {} = false ∧
    shouldUseMultihop "What is apt?" {} = false := by
  constructor <;> decide

/-! ## C9 — `optimize_for_retrieval` contract -/

/-- C9: for every query and every transformation list produced by the
transformer, `optimize_for_retrieval` returns an `optimized_queries` list
whose first element is the original query and which has no duplicates, and
its `search_strategy` is `"parallel"` exactly when more than 2 distinct
queries result, `"sequential"` otherwise. -/
theorem optimize_for_retrieval_contract (query : String)
    (all_transformations : List QueryTransformation) :
    (optimizeForRetrieval query all_transformations).optimized_queries.head? = some query ∧
    (optimizeForRetrieval query all_transformations).optimized_queries.Nodup ∧
    ((optimizeForRetrieval query all_transformations).search_strategy = "parallel" ↔
      2 < (optimizeForRetrieval query all_transformations).optimized_queries.length) ∧
    ((optimizeForRetrieval query all_transformations).search_strategy = "sequential" ↔
      ¬ 2 < (optimizeForRetrieval query all_transformations).optimized_queries.length) := by
  have hhead : ∀ rest : List String, dedupFirstBy id [] (query :: rest) =
      query :: dedupFirstBy id [query] rest := by
    intro rest; simp [dedupFirstBy]
  have hps : ("parallel" : String) ≠ "sequential" := by decide
  refine ⟨?_, ?_, ?_, ?_⟩
  · simp [optimizeForRetrieval, hhead]
  · have h := dedupFirstBy_nodup_keys (γ := String) id []
      (query :: (getBestTransformations all_transformations 3).map fun t => t.transformed_query)
    simpa [optimizeForRetrieval] using h
  · simp only [optimizeForRetrieval]
    constructor
    · intro hp
      by_contra hc
      rw [if_neg hc] at hp
      exact hps hp.symm
    · intro hc
      rw [if_pos hc]
  · simp only [optimizeForRetrieval]
    constructor
    · intro hs hc
      rw [if_pos hc] at hs
      exact hps hs
    · intro hc
      rw [if_neg hc]

/-! ## C7 — hop confidence formula -/

/-- C7: for every hop number `h ≥ 1` and result list, the hop's confidence
equals the mean similarity of the relevant results (score `≥ 0.3` on hop 1,
`≥ 0.2` later) times the decay `0.9^(h-1)`, and `0` when no result meets the
threshold. -/
theorem process_hop_confidence (results : List SearchResult) (query : String)
    (h : Nat) (hh : 1 ≤ h) :
    (processHopResults results query h).confidence =
      (let relevant := results.filter fun r =>
        (if h = 1 then (3/10 : ℚ) else 1/5) ≤ r.similarity_score.getD 0
       if relevant.isEmpty then 0
       else ((relevant.map fun r => r.similarity_score.getD 0).sum /
          (relevant.length : ℚ)) * (9/10) ^ (h - 1)) := by
  cases results with
  | nil => simp [processHopResults]
  | cons r rs =>
    simp only [processHopResults, List.isEmpty_cons, Bool.false_eq_true, if_false,
      pySum_eq_sum]

/-- Witness for C7 at hop 2 with scores `[0.25, 0.1]`: only `0.25` survives
the `0.2` threshold, and the confidence is `0.25 × 0.9 = 0.225`. -/
theorem process_hop_confidence_witness :
    (1 ≤ 2) ∧
    (processHopResults
        [{ similarity_score := some (1/4) }, { similarity_score := some (1/10) }]
        "q" 2).confidence =
      (let relevant := [({ similarity_score := some (1/4) } : SearchResult),
          { similarity_score := some (1/10) }].filter fun r =>
        (if 2 = 1 then (3/10 : ℚ) else 1/5) ≤ r.similarity_score.getD 0
       if relevant.isEmpty then 0
       else ((relevant.map fun r => r.similarity_score.getD 0).sum /
          (relevant.length : ℚ)) * (9/10) ^ (2 - 1)) :=
  ⟨by decide, process_hop_confidence _ "q" 2 (by decide)⟩

/-! ## C5 — empty first hop fails fast -/

/-- C5: if the first retrieval hop of `MultiHopReasoner.reason` returns no
evidence, reasoning stops at once with the failure result: confidence `0.1`,
empty evidence, `hops_performed = 0`. -/
theorem reason_empty_first_hop (search : String → Nat → List SearchResult)
    (query : String) (ctx : Context) (max_hops : Nat)
    (h : search (enhanceInitialQuery query ctx) 3 = []) :
    (reason search query ctx max_hops).confidence = 1/10 ∧
    (reason search query ctx max_hops).evidence = [] ∧
    (reason search query ctx max_hops).hops_performed = 0 := by
  simp [reason, h, createFailureResponse]

/-- Witness for C5: a search engine that never returns results. -/
theorem reason_empty_first_hop_witness :
    (reason (fun _ _ => []) "x" {} 3).confidence = 1/10 ∧
    (reason (fun _ _ => []) "x" {} 3).evidence = [] ∧
    (reason (fun _ _ => []) "x" {} 3).hops_performed = 0 :=
  reason_empty_first_hop _ "x" {} 3 rfl

/-! ## C6 — high hop-1 confidence stops reasoning -/

theorem reasonLoop_stopped (search : String → Nat → List SearchResult)
    (query : String) (ctx : Context) (max_hops fuel current_hop : Nat)
    (state : ReasoningState) (concepts : List String)
    (hstop : shouldContinueReasoning state.confidence_scores = false) :
    reasonLoop search query ctx max_hops fuel current_hop state concepts = state := by
  cases fuel with
  | zero => rfl
  | succ f =>
    simp only [reasonLoop]
    rw [if_neg]
    rintro ⟨-, -, hc⟩
    rw [hstop] at hc
    exact Bool.false_ne_true hc

/-- C6: whenever hop 1 of `MultiHopReasoner.reason` produces a confidence of
`0.85` (so the confidence-score list is `[0.85]`, whose average exceeds
`0.8`), no second hop is performed — regardless of the search engine, the
context, `max_hops`, and however many follow-up concepts remain. -/
theorem reason_stops_after_confident_hop
    (search : String → Nat → List SearchResult) (query : String)
    (ctx : Context) (max_hops : Nat)
    (hne : search (enhanceInitialQuery query ctx) 3 ≠ [])
    (hconf : (processHopResults (search (enhanceInitialQuery query ctx) 3)
        query 1).confidence = 17/20) :
    (reason search query ctx max_hops).hops_performed = 1 := by
  have hempty : (search (enhanceInitialQuery query ctx) 3).isEmpty = false := by
    cases hcase : search (enhanceInitialQuery query ctx) 3 with
    | nil => exact absurd hcase hne
    | cons a l => rfl
  simp only [reason, hempty, Bool.false_eq_true, if_false]
  rw [reasonLoop_stopped]
  · rfl
  · show shouldContinueReasoning [(processHopResults _ query 1).confidence] = false
    rw [hconf]
    decide

/-- Witness for C6: a search engine returning one result with similarity
`0.85` whose content mentions a follow-up concept (`dependencies`), so hop 1
scores `0.85` and concepts do remain available. -/
theorem reason_stops_after_confident_hop_witness :
    (fun (_ : String) (_ : Nat) =>
        [({ similarity_score := some (17/20), content := some "check dependencies" }
          : SearchResult)]) (enhanceInitialQuery "update error" {}) 3 ≠ [] ∧
    (reason (fun _ _ =>
      [{ similarity_score := some (17/20), content := some "check dependencies" }])
      "update error" {} 3).hops_performed = 1 :=
  ⟨by decide,
   reason_stops_after_confident_hop _ "update error" {} 3 (by decide) (by decide)⟩

/-! ## C3 — no-results fallback for `"shutdown"` / `ShutdownComputer` -/

/-- C3 counterexample: in the standard configuration (the startup routine
installs the `AnswerSynthesizer`), the no-results branch of `retrieve` for
query `"shutdown"` with intent `"ShutdownComputer"` does **not** return the
fixed shutdown-intent canned response — it returns the synthesizer's generic
keyword fallback instead, because the synthesizer branch is taken before
`fallback_response` and never consults the intent. -/
theorem retrieve_shutdown_fallback_counterexample :
    (retrieveNoResults "shutdown" (some "ShutdownComputer") none true none 0).response ≠
      (fallbackResponse "shutdown" (some "ShutdownComputer") 0).response := by
  decide

/-- C3 amended: the no-results branch for `"shutdown"` with intent
`"ShutdownComputer"` always returns confidence exactly `0.3` and empty
sources, but the response text is the fixed shutdown-intent canned response
only when the answer synthesizer is unavailable; when it is available (the
normal configuration) the text is the synthesizer's generic no-results
fallback for `"shutdown"`. -/
theorem retrieve_shutdown_fallback (has_synthesizer : Bool) (pick : Nat)
    (rq : Option String) :
    (retrieveNoResults "shutdown" (some "ShutdownComputer") none has_synthesizer
        rq pick).confidence = 3/10 ∧
    (retrieveNoResults "shutdown" (some "ShutdownComputer") none has_synthesizer
        rq pick).sources = [] ∧
    (retrieveNoResults "shutdown" (some "ShutdownComputer") none has_synthesizer
        rq pick).response =
      (if has_synthesizer then generateFallbackResponse "shutdown" none
       else ((intentResponses.find? fun kv => kv.1 = "ShutdownComputer").map
          fun kv => kv.2).getD "") := by
  cases has_synthesizer with
  | false => exact ⟨rfl, rfl, rfl⟩
  | true => exact ⟨rfl, rfl, rfl⟩

/-! ## C4 — cache-key derivation -/

/-- C4 counterexample: extra keyword parameters are **not** sorted —
`_generate_key` iterates them in the order supplied, so passing the same two
parameters in different orders yields different keys. -/
theorem generate_key_order_counterexample :
    generateKey false "rag" "q" (some "i") [("a", some "1"), ("b", some "2")] ≠
      generateKey false "rag" "q" (some "i") [("b", some "2"), ("a", some "1")] := by
  decide

theorem toNat_toLower_of_upper (c : Char) (h : c.toNat ≥ 65 ∧ c.toNat ≤ 90) :
    (c.toLower).toNat = c.toNat + 32 := by
  simp only [Char.toLower, if_pos h, Char.ofNat]
  rw [dif_pos (Or.inl (show c.toNat + 32 < 55296 by omega))]
  rfl

theorem toLower_idem (c : Char) : (c.toLower).toLower = c.toLower := by
  have hexp : ∀ d : Char, d.toLower =
      if d.toNat ≥ 65 ∧ d.toNat ≤ 90 then Char.ofNat (d.toNat + 32) else d :=
    fun _ => rfl
  by_cases h : c.toNat ≥ 65 ∧ c.toNat ≤ 90
  · have ht := toNat_toLower_of_upper c h
    rw [hexp c.toLower, if_neg (by omega)]
  · rw [hexp c, if_neg h, hexp c, if_neg h]

theorem pyLower_idem (s : String) : pyLower (pyLower s) = pyLower s := by
  simp only [pyLower, List.map_map]
  congr 1
  apply List.map_congr_left
  intro c _
  exact toLower_idem c

/-- C4 amended: the key is the namespaced hash of the lower-cased, trimmed
query, the lower-cased intent, and the extra parameters *in the order they
were supplied* (not sorted).  It is therefore stable across repeated calls
with identical inputs, and case changes in the query never change the key
(lower-casing first is invisible); but supplying the same parameter set in a
different order generally changes the key. -/
theorem generate_key_case_insensitive (ns query : String)
    (intent : Option String) (kwargs : List (String × Option String)) :
    generateKey false ns (pyLower query) intent kwargs =
      generateKey false ns query intent kwargs := by
  simp only [generateKey, Bool.false_eq_true, if_false, pyLower_idem]

/-- Witness for C4's amended theorem at the claim's own inputs: the key for
`"Install Firefox"` already lower-cased equals the key computed from the
mixed-case original. -/
theorem generate_key_case_insensitive_witness :
    generateKey false "rag" (pyLower "Install Firefox") (some "MakeUpdate")
        [("top_k", some "3")] =
      generateKey false "rag" "Install Firefox" (some "MakeUpdate")
        [("top_k", some "3")] :=
  generate_key_case_insensitive "rag" "Install Firefox" (some "MakeUpdate")
    [("top_k", some "3")]

/-! ## C1 — cache set/get round trip with case-insensitive key and
`top_k`-sensitive miss -/

/-- C1: on a fresh cache, for every payload, `set("Install Firefox",
payload, intent="MakeUpdate", top_k=3)` at time `t` followed by
`get("install firefox", intent="MakeUpdate", top_k=3)` at any time `tg`
before expiry returns that payload (the key match is case-insensitive),
while the same `get` with `top_k=5` is a miss (`None`). -/
theorem cache_install_firefox_roundtrip {α : Type} (payload : α) (t tg : ℚ)
    (h : tg < t + 3600) :
    (cacheGet (cacheSet (initCache α) t "Install Firefox" payload
        (some "MakeUpdate") none [("top_k", some "3")]).2 tg "install firefox"
        (some "MakeUpdate") [("top_k", some "3")]).1 = some payload ∧
    (cacheGet (cacheSet (initCache α) t "Install Firefox" payload
        (some "MakeUpdate") none [("top_k", some "3")]).2 tg "install firefox"
        (some "MakeUpdate") [("top_k", some "5")]).1 = none := by
  have hkeq : generateKey false "rag" "install firefox" (some "MakeUpdate")
        [("top_k", some "3")]
      = generateKey false "rag" "Install Firefox" (some "MakeUpdate")
        [("top_k", some "3")] := by decide
  have hkne : generateKey false "rag" "install firefox" (some "MakeUpdate")
        [("top_k", some "5")]
      ≠ generateKey false "rag" "Install Firefox" (some "MakeUpdate")
        [("top_k", some "3")] := by decide
  have hset : (cacheSet (initCache α) t "Install Firefox" payload
      (some "MakeUpdate") none [("top_k", some "3")]).2 =
      { initCache α with memory_cache :=
          [(generateKey false "rag" "Install Firefox" (some "MakeUpdate")
              [("top_k", some "3")], ⟨payload, t + 3600⟩)] } := by
    simp [cacheSet, initCache, dictInsert]
  constructor
  · rw [hset]
    simp [cacheGet, initCache, dictFind, List.find?, hkeq, h]
  · rw [hset]
    have hd : decide (generateKey false "rag" "Install Firefox" (some "MakeUpdate")
          [("top_k", some "3")] =
        generateKey false "rag" "install firefox" (some "MakeUpdate")
          [("top_k", some "5")]) = false :=
      decide_eq_false (Ne.symm hkne)
    simp [cacheGet, initCache, dictFind, List.find?, hd]

/-- Witness for C1 at payload `42`, set at time `0`, get at time `1`. -/
theorem cache_install_firefox_roundtrip_witness :
    ((1 : ℚ) < 0 + 3600) ∧
    (cacheGet (cacheSet (initCache Nat) 0 "Install Firefox" 42
        (some "MakeUpdate") none [("top_k", some "3")]).2 1 "install firefox"
        (some "MakeUpdate") [("top_k", some "3")]).1 = some 42 ∧
    (cacheGet (cacheSet (initCache Nat) 0 "Install Firefox" 42
        (some "MakeUpdate") none [("top_k", some "3")]).2 1 "install firefox"
        (some "MakeUpdate") [("top_k", some "5")]).1 = none :=
  ⟨by norm_num,
   (cache_install_firefox_roundtrip 42 0 1 (by norm_num)).1,
   (cache_install_firefox_roundtrip 42 0 1 (by norm_num)).2⟩

/-! ## C8 — `_merge_results` deduplication -/

theorem insAscBy_perm {γ κ : Type} [LinearOrder κ] (key : γ → κ) (x : γ)
    (l : List γ) : (insAscBy key x l).Perm (x :: l) := by
  induction l with
  | nil => exact List.Perm.refl _
  | cons y ys ih =>
    simp only [insAscBy]
    split
    · exact List.Perm.refl _
    · exact (ih.cons y).trans (List.Perm.swap x y ys)

theorem sortAscBy_perm {γ κ : Type} [LinearOrder κ] (key : γ → κ)
    (l : List γ) : (sortAscBy key l).Perm l := by
  induction l with
  | nil => exact List.Perm.refl _
  | cons x xs ih => exact (insAscBy_perm key x _).trans (ih.cons x)

theorem insDescBy_perm {γ : Type} (key : γ → ℚ) (x : γ) (l : List γ) :
    (insDescBy key x l).Perm (x :: l) := by
  induction l with
  | nil => exact List.Perm.refl _
  | cons y ys ih =>
    simp only [insDescBy]
    split
    · exact List.Perm.refl _
    · exact (ih.cons y).trans (List.Perm.swap x y ys)

theorem sortDescBy_perm {γ : Type} (key : γ → ℚ) (l : List γ) :
    (sortDescBy key l).Perm l := by
  induction l with
  | nil => exact List.Perm.refl _
  | cons x xs ih => exact (insDescBy_perm key x _).trans (ih.cons x)

theorem insAscBy_pairwise {γ κ : Type} [LinearOrder κ] (key : γ → κ) (x : γ)
    (l : List γ) (hl : l.Pairwise fun a b => key a ≤ key b) :
    (insAscBy key x l).Pairwise fun a b => key a ≤ key b := by
  induction l with
  | nil => simp [insAscBy]
  | cons y ys ih =>
    rcases List.pairwise_cons.mp hl with ⟨hy, hys⟩
    simp only [insAscBy]
    split
    · rename_i hxy
      refine List.pairwise_cons.mpr ⟨?_, hl⟩
      intro z hz
      rcases List.mem_cons.mp hz with hz | hz
      · exact hz ▸ hxy
      · exact le_trans hxy (hy z hz)
    · rename_i hxy
      refine List.pairwise_cons.mpr ⟨?_, ih hys⟩
      intro z hz
      rcases List.mem_cons.mp ((insAscBy_perm key x ys).mem_iff.mp hz) with hz | hz
      · exact hz ▸ le_of_not_le hxy
      · exact hy z hz

theorem sortAscBy_pairwise {γ κ : Type} [LinearOrder κ] (key : γ → κ)
    (l : List γ) : (sortAscBy key l).Pairwise fun a b => key a ≤ key b := by
  induction l with
  | nil => simp [sortAscBy]
  | cons x xs ih => exact insAscBy_pairwise key x _ ih

theorem dedupFirstBy_countP_seen {γ κ : Type} [DecidableEq κ] (key : γ → κ)
    (k : κ) (l : List γ) :
    ∀ seen : List κ, k ∈ seen →
      (dedupFirstBy key seen l).countP (fun d => decide (key d = k)) = 0 := by
  induction l with
  | nil => intro seen _; simp [dedupFirstBy]
  | cons x xs ih =>
    intro seen hk
    simp only [dedupFirstBy]
    split
    · exact ih seen hk
    · rename_i hx
      rw [List.countP_cons]
      have hpx : decide (key x = k) = false := by
        simp only [decide_eq_false_iff_not]
        intro he
        exact hx (he ▸ hk)
      simp [hpx, ih (key x :: seen) (List.mem_cons_of_mem _ hk)]

theorem dedupFirstBy_countP_unseen {γ κ : Type} [DecidableEq κ] (key : γ → κ)
    (k : κ) (l : List γ) :
    ∀ seen : List κ, k ∉ seen →
      (dedupFirstBy key seen l).countP (fun d => decide (key d = k)) =
        if l.any (fun d => decide (key d = k)) then 1 else 0 := by
  induction l with
  | nil => intro seen _; simp [dedupFirstBy]
  | cons x xs ih =>
    intro seen hk
    simp only [dedupFirstBy, List.any_cons]
    split
    · rename_i hx
      have hpx : (fun d => decide (key d = k)) x = false := by
        simp only [decide_eq_false_iff_not]
        intro he
        exact hk (he ▸ hx)
      rw [ih seen hk]
      simp [hpx]
    · rename_i hx
      rw [List.countP_cons]
      by_cases hkey : key x = k
      · subst hkey
        have hrest := dedupFirstBy_countP_seen key (key x) xs (key x :: seen)
          (List.mem_cons_self _ _)
        simp [hrest]
      · have hrest := ih (key x :: seen) (by
          intro hmem
          rcases List.mem_cons.mp hmem with h | h
          · exact hkey h.symm
          · exact hk h)
        simp [hrest, hkey]

theorem dedupFirstBy_min_val {γ κ ν : Type} [DecidableEq κ] [LinearOrder ν]
    (key : γ → κ) (val : γ → ν) (l : List γ) :
    ∀ seen : List κ, l.Pairwise (fun a b => val a ≤ val b) →
      ∀ d ∈ dedupFirstBy key seen l, ∀ d' ∈ l, key d' = key d → val d ≤ val d' := by
  induction l with
  | nil => intro seen _ d hd; simp [dedupFirstBy] at hd
  | cons x xs ih =>
    intro seen hsort d hd d' hd' hkey
    rcases List.pairwise_cons.mp hsort with ⟨hx, hxs⟩
    simp only [dedupFirstBy] at hd
    split at hd
    · rename_i hseen
      rcases List.mem_cons.mp hd' with hd' | hd'
      · exfalso
        apply dedupFirstBy_key_not_seen key seen xs d hd
        rw [← hkey, hd']
        exact hseen
      · exact ih seen hxs d hd d' hd' hkey
    · rename_i hseen
      rcases List.mem_cons.mp hd with hdx | hd
      · subst hdx
        rcases List.mem_cons.mp hd' with hd' | hd'
        · rw [hd']
        · exact hx d' hd'
      · rcases List.mem_cons.mp hd' with hd' | hd'
        · exfalso
          apply dedupFirstBy_key_not_seen key (key x :: seen) xs d hd
          rw [← hkey, hd']
          exact List.mem_cons_self _ _
        · exact ih (key x :: seen) hxs d hd d' hd' hkey

/-- C8: `_merge_results` deduplicates by document/chunk id keeping the
earliest (lowest hop number) occurrence — for every document list, each id
present in the input survives exactly once, every output document comes from
the input with a hop number minimal among the input documents sharing its id;
and in particular `[{id:"a",hop:1},{id:"b",hop:1},{id:"a",hop:2}]`
deduplicates to `[{id:"a",hop:1},{id:"b",hop:1}]`. -/
theorem merge_results_dedup :
    (∀ docs : List HopDoc,
      (∀ k : DKey, countKeyD k (mergeResults docs) = min (countKeyD k docs) 1) ∧
      (∀ d ∈ mergeResults docs, d ∈ docs ∧
        ∀ d' ∈ docs, dedupKey d' = dedupKey d →
          d.hop_number.getD 0 ≤ d'.hop_number.getD 0)) ∧
    mergeResults [{ id := some "a", hop_number := some 1 },
        { id := some "b", hop_number := some 1 },
        { id := some "a", hop_number := some 2 }] =
      [{ id := some "a", hop_number := some 1 },
       { id := some "b", hop_number := some 1 }] := by
  constructor
  · intro docs
    have hpermAsc := sortAscBy_perm (fun d : HopDoc => d.hop_number.getD 0) docs
    have hpermDesc := sortDescBy_perm (fun d : HopDoc => d.score.getD 0)
      (dedupFirstBy dedupKey []
        (sortAscBy (fun d : HopDoc => d.hop_number.getD 0) docs))
    constructor
    · intro k
      have hcount := dedupFirstBy_countP_unseen dedupKey k
        (sortAscBy (fun d : HopDoc => d.hop_number.getD 0) docs) []
        (List.not_mem_nil k)
      have hmain : countKeyD k (mergeResults docs) =
          if (sortAscBy (fun d : HopDoc => d.hop_number.getD 0) docs).any
              (fun d => decide (dedupKey d = k)) then 1 else 0 := by
        simp only [countKeyD, mergeResults]
        rw [hpermDesc.countP_eq _, hcount]
      have hdocs : (sortAscBy (fun d : HopDoc => d.hop_number.getD 0) docs).countP
          (fun d => decide (dedupKey d = k)) = countKeyD k docs := by
        simp only [countKeyD]
        exact hpermAsc.countP_eq _
      rw [hmain]
      cases hany : (sortAscBy (fun d : HopDoc => d.hop_number.getD 0) docs).any
          (fun d => decide (dedupKey d = k)) with
      | true =>
        have hpos : 0 < (sortAscBy (fun d : HopDoc => d.hop_number.getD 0)
            docs).countP (fun d => decide (dedupKey d = k)) := by
          rcases List.any_eq_true.mp hany with ⟨a, ha, hpa⟩
          exact List.countP_pos_iff.mpr ⟨a, ha, hpa⟩
        rw [hdocs] at hpos
        simp only [if_true]
        omega
      | false =>
        have hzero : (sortAscBy (fun d : HopDoc => d.hop_number.getD 0)
            docs).countP (fun d => decide (dedupKey d = k)) = 0 := by
          rw [List.countP_eq_zero]
          intro a ha
          have := List.any_eq_false.mp hany a ha
          simpa using this
        rw [hdocs] at hzero
        simp only [Bool.false_eq_true, if_false]
        omega
    · intro d hd
      have hdU : d ∈ dedupFirstBy dedupKey []
          (sortAscBy (fun d : HopDoc => d.hop_number.getD 0) docs) :=
        hpermDesc.mem_iff.mp hd
      have hdL := dedupFirstBy_mem dedupKey _ _ d hdU
      refine ⟨hpermAsc.mem_iff.mp hdL, ?_⟩
      intro d' hd' hkey
      exact dedupFirstBy_min_val dedupKey (fun d : HopDoc => d.hop_number.getD 0)
        _ [] (sortAscBy_pairwise _ docs) d hdU d'
        (hpermAsc.mem_iff.mpr hd') hkey
  · decide

/-- Witness for C8: the count property of the theorem applied at the
concrete three-document list and the id `"a"`. -/
theorem merge_results_dedup_witness :
    countKeyD (DKey.strKey "a") (mergeResults
        [{ id := some "a", hop_number := some 1 },
         { id := some "b", hop_number := some 1 },
         { id := some "a", hop_number := some 2 }]) =
      min (countKeyD (DKey.strKey "a")
        [{ id := some "a", hop_number := some 1 },
         { id := some "b", hop_number := some 1 },
         { id := some "a", hop_number := some 2 }]) 1 :=
  (merge_results_dedup.1 _).1 (DKey.strKey "a")

/-- Witness for C3's amended theorem in the normal configuration
(synthesizer available). -/
theorem retrieve_shutdown_fallback_witness :
    (retrieveNoResults "shutdown" (some "ShutdownComputer") none true
        none 0).confidence = 3/10 ∧
    (retrieveNoResults "shutdown" (some "ShutdownComputer") none true
        none 0).sources = [] ∧
    (retrieveNoResults "shutdown" (some "ShutdownComputer") none true
        none 0).response =
      (if true then generateFallbackResponse "shutdown" none
       else ((intentResponses.find? fun kv => kv.1 = "ShutdownComputer").map
          fun kv => kv.2).getD "") :=
  retrieve_shutdown_fallback true 0 none

/-- Witness for C9 at the query `"install firefox"` with no transformations. -/
theorem optimize_for_retrieval_contract_witness :
    (optimizeForRetrieval "install firefox" []).optimized_queries.head? =
      some "install firefox" ∧
    (optimizeForRetrieval "install firefox" []).optimized_queries.Nodup ∧
    ((optimizeForRetrieval "install firefox" []).search_strategy = "parallel" ↔
      2 < (optimizeForRetrieval "install firefox" []).optimized_queries.length) ∧
    ((optimizeForRetrieval "install firefox" []).search_strategy = "sequential" ↔
      ¬ 2 < (optimizeForRetrieval "install firefox" []).optimized_queries.length) :=
  optimize_for_retrieval_contract "install firefox" []

end ProofSection

end RagService
